import Mathlib

/-!
Shallow embedding of the CV-analyzer service (`src/main.py`).

The program is a FastAPI endpoint that accepts a PDF upload, hashes the
bytes, consults a file-per-key pickle cache with a 7-day expiry, and on a
miss extracts the PDF text and sends it to a completion API, caching the
structured JSON result.

Modelling choices:
- Wall-clock instants are `Int` seconds (Python `time.time()`), one instant
  per request.
- A cached payload (`Dict[Any, Any]` holding JSON data) is a list of
  string-keyed JSON fields; Python dict truthiness is non-emptiness.
- The cache directory is a function from hash strings to an optional stored
  record; a record is either a readable `(timestamp, result)` pair or an
  unreadable one (`corrupt`), modelling `pickle.load` failure.
- Internal faults the Python code catches (failed `pickle.dump`, failed
  `unlink`) are injected through explicit Boolean flags; the embedded
  operations are total, which mirrors the fact that the Python functions
  never raise to their caller.
- The two external collaborators (`PyPDF2` page extraction wrapped by
  `extract_text_from_pdf`, and the OpenAI call wrapped by
  `generate_json_from_text`) are given to the handler as `Except` values
  describing their behaviour on this request; the md5 digest
  (`hashlib.md5(content).hexdigest()`) is an arbitrary function from the
  byte content to a string.
- `upload_cv` returns, besides the HTTP-visible response and the new cache
  state, observable execution facts: whether the temporary file was
  created/removed, whether each collaborator was invoked, whether
  `save_to_cache` was called, and whether the empty-text error branch ran.
-/

namespace CVAnalyzer

/-- JSON values, as produced by `json.loads` on the completion response. -/
inductive Json where
  | null
  | bool (b : Bool)
  | num (n : Int)
  | str (s : String)
  | arr (elems : List Json)
  | obj (fields : List (String × Json))

/-- The cached result payload: a JSON-compatible mapping
(Python `Dict[Any, Any]` with string keys). -/
abbrev Payload := List (String × Json)

/-- One on-disk cache record (`{hash}.pkl`): either a readable pickled
`(timestamp, result)` pair, or an unreadable file on which `pickle.load`
raises. -/
inductive CacheRecord where
  | good (timestamp : Int) (result : Payload)
  | corrupt

/-- The cache directory: a record per hash string, or none when no file
with that name exists. -/
def CacheState := String → Option CacheRecord

/-- Embedding of `CACHE_EXPIRY = 60 * 60 * 24 * 7`, the 7-day TTL in seconds
(main.py line 31). -/
def CACHE_EXPIRY : Int := 60 * 60 * 24 * 7

/-- Embedding of `get_from_cache` (main.py lines 50-73).  Returns the cached payload
when the file exists, loads, and is not expired; expiry deletes the file
(`cache_file.unlink()`).  `unlinkFails` injects a failure of that `unlink`;
any exception inside the `try` is caught and yields `None` with the
directory unchanged. -/
def get_from_cache (now : Int) (st : CacheState) (file_hash : String)
    (unlinkFails : Bool) : Option Payload × CacheState :=
  match st file_hash with
  | none => (none, st)
  | some CacheRecord.corrupt => (none, st)
  | some (CacheRecord.good timestamp result) =>
    if now - timestamp > CACHE_EXPIRY then
      if unlinkFails then
        (none, st)
      else
        (none, fun k => if k = file_hash then none else st k)
    else
      (some result, st)

/-- Embedding of `save_to_cache` (main.py lines 76-85).  Writes `(time.time(), result)`
for the hash, overwriting any prior record; `writeFails` injects a failure
of the write, which is caught and swallowed. -/
def save_to_cache (now : Int) (st : CacheState) (file_hash : String)
    (result : Payload) (writeFails : Bool) : CacheState :=
  if writeFails then st
  else fun k => if k = file_hash then some (CacheRecord.good now result) else st k

/-- Python truthiness of a dict: non-empty. -/
def dictTruthy (d : Payload) : Bool := !d.isEmpty

/-- Python truthiness of the value returned by `get_from_cache`
(`None` or a dict). -/
def optTruthy : Option Payload → Bool
  | none => false
  | some d => dictTruthy d

/-- The page loop of `extract_text_from_pdf` (main.py lines 98-104):
`text = ""` then for each page `text += page_text + "\n"`.  The input is
the list of per-page texts `page.extract_text()` returns, in page order. -/
def extract_text_from_pdf (pages : List String) : String :=
  pages.foldl (fun text page_text => text ++ page_text ++ "\n") ""

/-- The characters of the filename, lowercased
(`file.filename.lower()`). -/
def lowerData (filename : String) : List Char := filename.data.map Char.toLower

/-- Embedding of the filename check at main.py line 145: lowercase the
filename and test for the suffix ".pdf", over the character sequence of
the filename. -/
def hasPdfSuffix (filename : String) : Bool :=
  List.isSuffixOf ".pdf".data (lowerData filename)

/-- The per-request environment of `upload_cv`: the digest function
(`hashlib.md5(...).hexdigest()`), the current wall-clock instant, the
behaviour of the two external collaborators on this request
(`Except.error m` means the wrapper raised with message `m`, already
prefixed as the wrapper does), and the injected cache faults. -/
structure Env where
  hash : List Nat → String
  now : Int
  extract : Except String String
  generate : Except String Payload
  saveFails : Bool
  unlinkCacheFails : Bool

/-- What the endpoint hands back to FastAPI: either an `HTTPException`
propagated out of the handler (transport-level client error), or a JSON
body returned with success status. -/
inductive Response where
  | clientError (status : Nat) (detail : String)
  | body (payload : Payload)

/-- Observable outcome of one `upload_cv` request: the response, the cache
directory afterwards, and execution facts (temporary-file lifecycle,
collaborator invocations, whether `save_to_cache` ran, whether the
empty-extraction error branch at main.py lines 188-190 ran). -/
structure UploadOutcome where
  response : Response
  cache : CacheState
  tempCreated : Bool
  tempRemoved : Bool
  extractCalled : Bool
  generateCalled : Bool
  saveCalled : Bool
  emptyTextBranch : Bool

/-- The cache-miss path of `upload_cv` (main.py lines 163-190), entered
with the cache state `st1` left by the lookup.  The temporary file is
written first; `extract_text_from_pdf` may raise (its message propagates to
the outer `except`, skipping the `os.unlink`); on empty text the handler
raises `HTTPException(400, ...)` which the outer `except Exception` also
catches, producing an error body whose message is the Starlette rendering
of the exception, status code then detail. -/
def upload_miss (env : Env) (st1 : CacheState) (file_hash : String) : UploadOutcome :=
  match env.extract with
  | Except.error msg =>
    { response := Response.body [("error", Json.str msg)]
      cache := st1
      tempCreated := true, tempRemoved := false
      extractCalled := true, generateCalled := false
      saveCalled := false, emptyTextBranch := false }
  | Except.ok cv_text =>
    if cv_text = "" then
      { response := Response.body
          [("error", Json.str "400: Could not extract text from the PDF")]
        cache := st1
        tempCreated := true, tempRemoved := true
        extractCalled := true, generateCalled := false
        saveCalled := false, emptyTextBranch := true }
    else
      match env.generate with
      | Except.error msg =>
        { response := Response.body [("error", Json.str msg)]
          cache := st1
          tempCreated := true, tempRemoved := true
          extractCalled := true, generateCalled := true
          saveCalled := false, emptyTextBranch := false }
      | Except.ok extracted_json =>
        { response := Response.body extracted_json
          cache := save_to_cache env.now st1 file_hash extracted_json env.saveFails
          tempCreated := true, tempRemoved := true
          extractCalled := true, generateCalled := true
          saveCalled := true, emptyTextBranch := false }

/-- Embedding of `upload_cv` (main.py lines 139-194).  The filename check precedes the
`try`, so its `HTTPException` reaches the transport; everything inside the
`try` that raises is caught at line 192 and returned as an
`{"error": str(e)}` body.  The cache hit test `if cached_result:` is a
truthiness test. -/
def upload_cv (env : Env) (st : CacheState) (filename : String)
    (content : List Nat) : UploadOutcome :=
  if hasPdfSuffix filename then
    let file_hash := env.hash content
    let looked := get_from_cache env.now st file_hash env.unlinkCacheFails
    if optTruthy looked.1 then
      { response := Response.body (looked.1.getD [])
        cache := looked.2
        tempCreated := false, tempRemoved := false
        extractCalled := false, generateCalled := false
        saveCalled := false, emptyTextBranch := false }
    else
      upload_miss env looked.2 file_hash
  else
    { response := Response.clientError 400 "Only PDF files are accepted"
      cache := st
      tempCreated := false, tempRemoved := false
      extractCalled := false, generateCalled := false
      saveCalled := false, emptyTextBranch := false }

/-- Amended spec description of the extractor output: the page texts
in page order, each page followed by a single line break (so one line break
separates consecutive pages and a trailing line break follows the last
page). -/
def pagesJoined : List String → String
  | [] => ""
  | p :: ps => p ++ "\n" ++ pagesJoined ps

theorem extract_foldl_acc (pages : List String) (acc : String) :
    pages.foldl (fun text page_text => text ++ page_text ++ "\n") acc
      = acc ++ pagesJoined pages := by
  induction pages generalizing acc with
  | nil => simp [pagesJoined]
  | cons p ps ih =>
    rw [List.foldl_cons, ih]
    simp [pagesJoined, String.append_assoc]

theorem pagesJoined_length (p : String) (ps : List String) :
    0 < (pagesJoined (p :: ps)).length := by
  have h1 : ("\n").length = 1 := rfl
  simp [pagesJoined, String.length_append, h1]

/-- C1: Cache round-trip.  If `save_to_cache k v` succeeds at instant
`tSave` and `get_from_cache k` runs at instant `tGet` with the TTL not yet
elapsed (`tGet - tSave ≤ CACHE_EXPIRY`; the code expires only on strict
excess), the lookup returns `v`, for every JSON-compatible mapping `v` and
every prior cache state. -/
theorem C1_cache_roundtrip (st : CacheState) (k : String) (v : Payload)
    (tSave tGet : Int) (u : Bool) (h : tGet - tSave ≤ CACHE_EXPIRY) :
    (get_from_cache tGet (save_to_cache tSave st k v false) k u).1 = some v := by
  simp [get_from_cache, save_to_cache, not_lt.mpr h]

theorem C1_cache_roundtrip_witness :
    (0 : Int) - 0 ≤ CACHE_EXPIRY ∧
    (get_from_cache 0 (save_to_cache 0 (fun _ => none) "k"
        [("name", Json.str "x")] false) "k" false).1 = some [("name", Json.str "x")] :=
  ⟨by decide, C1_cache_roundtrip (fun _ => none) "k" [("name", Json.str "x")] 0 0 false
    (by decide)⟩

/-- C2: Lazy expiry with purge.  `CACHE_EXPIRY` is 7 days (604800 s); for
an entry stored at instant `tStore`, a lookup at any instant strictly later
than `tStore + CACHE_EXPIRY` returns `none` and, with the `unlink`
succeeding (no injected fault), removes the record for that key from the
cache directory. -/
theorem C2_lazy_expiry (st : CacheState) (k : String) (v : Payload)
    (tStore now : Int)
    (hstored : st k = some (CacheRecord.good tStore v))
    (hlate : tStore + CACHE_EXPIRY < now) :
    CACHE_EXPIRY = 604800 ∧
    (get_from_cache now st k false).1 = none ∧
    (get_from_cache now st k false).2 k = none := by
  have hexp : CACHE_EXPIRY < now - tStore := by omega
  refine ⟨by decide, ?_, ?_⟩ <;> simp [get_from_cache, hstored, hexp]

theorem C2_lazy_expiry_witness :
    (fun h => if h = "k" then some (CacheRecord.good 0 [("a", Json.null)]) else none : CacheState) "k"
      = some (CacheRecord.good 0 [("a", Json.null)]) ∧
    (0 : Int) + CACHE_EXPIRY < 604801 ∧
    CACHE_EXPIRY = 604800 ∧
    (get_from_cache 604801
      (fun h => if h = "k" then some (CacheRecord.good 0 [("a", Json.null)]) else none)
      "k" false).1 = none ∧
    (get_from_cache 604801
      (fun h => if h = "k" then some (CacheRecord.good 0 [("a", Json.null)]) else none)
      "k" false).2 "k" = none :=
  ⟨rfl, by decide,
    C2_lazy_expiry
      (fun h => if h = "k" then some (CacheRecord.good 0 [("a", Json.null)]) else none)
      "k" [("a", Json.null)] 0 604801 rfl (by decide)⟩

/-- C3: Fail-open cache.  Both operations are total functions of their
inputs (no exception escapes to the caller), and each internal error case
degrades as the claim states: a missing record, an unreadable record, and a
failed delete of an expired record all make `get_from_cache` return `none`
with the cache directory unchanged, and a failed write makes
`save_to_cache` a no-op on the cache directory. -/
theorem C3_fail_open (st : CacheState) (k : String) (v : Payload)
    (now : Int) (u : Bool) :
    (st k = none → get_from_cache now st k u = (none, st)) ∧
    (st k = some CacheRecord.corrupt → get_from_cache now st k u = (none, st)) ∧
    (∀ tStore w, st k = some (CacheRecord.good tStore w) →
      CACHE_EXPIRY < now - tStore →
      get_from_cache now st k true = (none, st)) ∧
    save_to_cache now st k v true = st := by
  refine ⟨fun h => ?_, fun h => ?_, fun tStore w h hexp => ?_, ?_⟩ <;>
    simp [get_from_cache, save_to_cache, *]

theorem C3_fail_open_witness :
    get_from_cache 5 (fun _ => none) "k" false = (none, fun _ => none) ∧
    get_from_cache 5 (fun _ => some CacheRecord.corrupt) "k" false
      = (none, fun _ => some CacheRecord.corrupt) ∧
    get_from_cache 604802 (fun _ => some (CacheRecord.good 1 [("a", Json.null)])) "k" true
      = (none, fun _ => some (CacheRecord.good 1 [("a", Json.null)])) ∧
    save_to_cache 5 (fun _ => none) "k" [("a", Json.null)] true = (fun _ => none) :=
  ⟨(C3_fail_open (fun _ => none) "k" [("a", Json.null)] 5 false).1 rfl,
   (C3_fail_open (fun _ => some CacheRecord.corrupt) "k" [("a", Json.null)] 5 false).2.1 rfl,
   (C3_fail_open (fun _ => some (CacheRecord.good 1 [("a", Json.null)])) "k"
      [("a", Json.null)] 604802 false).2.2.1 1 [("a", Json.null)] rfl (by decide),
   (C3_fail_open (fun _ => none) "k" [("a", Json.null)] 5 false).2.2.2⟩

/-- C8 (counterexample): the claim that `extract_text_from_pdf` joins the
pages with a single line-break separator between consecutive pages
(`String.intercalate "\n"`) fails already on a one-page document with page
text `"a"`: the code produces `"a\n"`, with a trailing line break. -/
theorem C8_intercalate_counterexample :
    ¬ (extract_text_from_pdf ["a"] = String.intercalate "\n" ["a"]) := by decide

/-- C8 (amended): for every parseable PDF, `extract_text_from_pdf` returns
the page texts concatenated in page order with every page — the last
included — followed by a single line break: one line break separates
consecutive pages and a trailing line break ends the output. -/
theorem C8_pages_line_terminated (pages : List String) :
    extract_text_from_pdf pages = pagesJoined pages := by
  have h := extract_foldl_acc pages ""
  simpa [extract_text_from_pdf] using h

/-- C10: for every parseable PDF with at least one page, the extracted text
is non-empty (each page appends at least the line break, even when its own
text is empty), so when the extractor behaves this way the empty-text error
branch of `upload_cv` (main.py lines 188-190) is not taken. -/
theorem C10_nonempty_extraction (pages : List String) (env : Env)
    (st : CacheState) (fn : String) (c : List Nat)
    (hp : pages ≠ [])
    (hex : env.extract = Except.ok (extract_text_from_pdf pages)) :
    extract_text_from_pdf pages ≠ "" ∧
    (upload_cv env st fn c).emptyTextBranch = false := by
  obtain ⟨p, ps, rfl⟩ := List.exists_cons_of_ne_nil hp
  have heq : extract_text_from_pdf (p :: ps) = pagesJoined (p :: ps) := by
    have h := extract_foldl_acc (p :: ps) ""
    simpa [extract_text_from_pdf] using h
  have hne : extract_text_from_pdf (p :: ps) ≠ "" := by
    intro h0
    have hlen := pagesJoined_length p ps
    rw [← heq, h0] at hlen
    simp at hlen
  refine ⟨hne, ?_⟩
  simp only [upload_cv]
  split
  · split
    · rfl
    · unfold upload_miss
      rw [hex]
      dsimp only
      rw [if_neg hne]
      cases env.generate <;> rfl
  · rfl

theorem C10_nonempty_extraction_witness :
    (["John"] : List String) ≠ [] ∧
    ({ hash := fun _ => "h", now := 0
       extract := Except.ok (extract_text_from_pdf ["John"])
       generate := Except.ok [("name", Json.str "John")]
       saveFails := false, unlinkCacheFails := false } : Env).extract
      = Except.ok (extract_text_from_pdf ["John"]) ∧
    extract_text_from_pdf ["John"] ≠ "" ∧
    (upload_cv
      { hash := fun _ => "h", now := 0
        extract := Except.ok (extract_text_from_pdf ["John"])
        generate := Except.ok [("name", Json.str "John")]
        saveFails := false, unlinkCacheFails := false }
      (fun _ => none) "cv.pdf" []).emptyTextBranch = false :=
  ⟨by decide, rfl,
    C10_nonempty_extraction ["John"]
      { hash := fun _ => "h", now := 0
        extract := Except.ok (extract_text_from_pdf ["John"])
        generate := Except.ok [("name", Json.str "John")]
        saveFails := false, unlinkCacheFails := false }
      (fun _ => none) "cv.pdf" [] (by decide) rfl⟩

/-- C7: Empty-extraction handling.  On a `.pdf` upload whose cache lookup
is not a truthy hit and whose extraction returns the empty string, the
handler responds with the user-visible error body
`{"error": "400: Could not extract text from the PDF"}` (the
`HTTPException` raised at line 190 is caught by the outer `except` of the
handler itself), `save_to_cache` is not called, and the cache directory is
exactly the one the lookup left (no entry written for the hash). -/
theorem C7_empty_extraction (env : Env) (st : CacheState) (fn : String)
    (c : List Nat)
    (hfn : hasPdfSuffix fn = true)
    (hmiss : optTruthy (get_from_cache env.now st (env.hash c) env.unlinkCacheFails).1 = false)
    (hex : env.extract = Except.ok "") :
    (upload_cv env st fn c).response
      = Response.body [("error", Json.str "400: Could not extract text from the PDF")] ∧
    (upload_cv env st fn c).saveCalled = false ∧
    (upload_cv env st fn c).cache
      = (get_from_cache env.now st (env.hash c) env.unlinkCacheFails).2 := by
  unfold upload_cv
  rw [if_pos hfn]
  simp only [hmiss]
  unfold upload_miss
  rw [hex]
  simp

theorem C7_empty_extraction_witness :
    hasPdfSuffix "cv.pdf" = true ∧
    (upload_cv
      { hash := fun _ => "h", now := 0, extract := Except.ok ""
        generate := Except.ok [("a", Json.null)]
        saveFails := false, unlinkCacheFails := false }
      (fun _ => none) "cv.pdf" []).response
      = Response.body [("error", Json.str "400: Could not extract text from the PDF")] ∧
    (upload_cv
      { hash := fun _ => "h", now := 0, extract := Except.ok ""
        generate := Except.ok [("a", Json.null)]
        saveFails := false, unlinkCacheFails := false }
      (fun _ => none) "cv.pdf" []).saveCalled = false :=
  ⟨rfl,
   (C7_empty_extraction
      { hash := fun _ => "h", now := 0, extract := Except.ok ""
        generate := Except.ok [("a", Json.null)]
        saveFails := false, unlinkCacheFails := false }
      (fun _ => none) "cv.pdf" [] rfl rfl rfl).1,
   (C7_empty_extraction
      { hash := fun _ => "h", now := 0, extract := Except.ok ""
        generate := Except.ok [("a", Json.null)]
        saveFails := false, unlinkCacheFails := false }
      (fun _ => none) "cv.pdf" [] rfl rfl rfl).2.1⟩

theorem upload_miss_facts (env : Env) (st1 : CacheState) (fh : String) :
    (upload_miss env st1 fh).tempCreated = true ∧
    ((upload_miss env st1 fh).tempRemoved = true ↔ ∃ t, env.extract = Except.ok t) := by
  unfold upload_miss
  cases hx : env.extract with
  | error m => simp
  | ok t =>
    dsimp only
    by_cases h0 : t = ""
    · rw [if_pos h0]
      simp
    · rw [if_neg h0]
      cases env.generate <;> simp

/-- C4 (counterexample): when extraction raises (here with message
`"boom"`), the `os.unlink` at main.py line 176 is skipped — control jumps
from line 172 to the `except` at line 192 — so the temporary file is
created but never removed, refuting removal "on every exit path". -/
theorem C4_temp_cleanup_counterexample :
    (upload_cv
      { hash := fun _ => "h", now := 0, extract := Except.error "boom"
        generate := Except.ok [("a", Json.null)]
        saveFails := false, unlinkCacheFails := false }
      (fun _ => none) "cv.pdf" [1]).tempCreated = true ∧
    (upload_cv
      { hash := fun _ => "h", now := 0, extract := Except.error "boom"
        generate := Except.ok [("a", Json.null)]
        saveFails := false, unlinkCacheFails := false }
      (fun _ => none) "cv.pdf" [1]).tempRemoved = false :=
  ⟨rfl, rfl⟩

/-- C4 (amended): whenever the temporary file is created (the cache-miss
branch), it is removed exactly when `extract_text_from_pdf` returns
normally — including the empty-text and structuring-failure exits — and it
is not removed when extraction raises. -/
theorem C4_temp_cleanup_amended (env : Env) (st : CacheState) (fn : String)
    (c : List Nat)
    (hcreated : (upload_cv env st fn c).tempCreated = true) :
    ((upload_cv env st fn c).tempRemoved = true ↔ ∃ t, env.extract = Except.ok t) := by
  by_cases hfn : hasPdfSuffix fn = true
  · by_cases hhit :
      optTruthy (get_from_cache env.now st (env.hash c) env.unlinkCacheFails).1 = true
    · simp [upload_cv, hfn, hhit] at hcreated
    · have hm : upload_cv env st fn c
          = upload_miss env (get_from_cache env.now st (env.hash c) env.unlinkCacheFails).2
              (env.hash c) := by
        simp [upload_cv, hfn, hhit]
      rw [hm]
      exact (upload_miss_facts env _ _).2
  · simp [upload_cv, hfn] at hcreated

theorem C4_temp_cleanup_amended_witness :
    (upload_cv
      { hash := fun _ => "h", now := 0, extract := Except.ok "text"
        generate := Except.ok [("a", Json.null)]
        saveFails := false, unlinkCacheFails := false }
      (fun _ => none) "cv.pdf" [1]).tempCreated = true ∧
    (upload_cv
      { hash := fun _ => "h", now := 0, extract := Except.ok "text"
        generate := Except.ok [("a", Json.null)]
        saveFails := false, unlinkCacheFails := false }
      (fun _ => none) "cv.pdf" [1]).tempRemoved = true :=
  ⟨rfl,
   (C4_temp_cleanup_amended
      { hash := fun _ => "h", now := 0, extract := Except.ok "text"
        generate := Except.ok [("a", Json.null)]
        saveFails := false, unlinkCacheFails := false }
      (fun _ => none) "cv.pdf" [1] rfl).mpr ⟨"text", rfl⟩⟩

/-- C5 (counterexample): with deterministic collaborators whose structuring
result is the empty mapping `{}`, the second upload of the same bytes finds
the cached `{}`, but the truthiness hit test `if cached_result:` treats it
as a miss, so the extractor and the structuring client are both invoked
again — refuting "the second call invokes neither". -/
theorem C5_repeat_upload_counterexample :
    (upload_cv
      { hash := fun _ => "h", now := 0, extract := Except.ok "text"
        generate := Except.ok [], saveFails := false, unlinkCacheFails := false }
      (upload_cv
        { hash := fun _ => "h", now := 0, extract := Except.ok "text"
          generate := Except.ok [], saveFails := false, unlinkCacheFails := false }
        (fun _ => none) "cv.pdf" [1]).cache
      "cv.pdf" [1]).extractCalled = true ∧
    (upload_cv
      { hash := fun _ => "h", now := 0, extract := Except.ok "text"
        generate := Except.ok [], saveFails := false, unlinkCacheFails := false }
      (upload_cv
        { hash := fun _ => "h", now := 0, extract := Except.ok "text"
          generate := Except.ok [], saveFails := false, unlinkCacheFails := false }
        (fun _ => none) "cv.pdf" [1]).cache
      "cv.pdf" [1]).generateCalled = true :=
  ⟨rfl, rfl⟩

/-- C5 (amended): for content not yet cached, if the extraction of the
first upload returns non-empty text, its structuring returns a non-empty
(truthy) mapping `v`, and the cache write succeeds, then a second upload of
the same bytes within the TTL returns the same result `v` and invokes
neither `extract_text_from_pdf` nor `generate_json_from_text`; when the
structured result is the empty (falsy) mapping this fails (see the
counterexample). -/
theorem C5_repeat_upload_amended (env1 env2 : Env) (st : CacheState)
    (fn : String) (c : List Nat) (t : String) (v : Payload)
    (hfn : hasPdfSuffix fn = true)
    (hfresh : st (env1.hash c) = none)
    (hex : env1.extract = Except.ok t) (ht : t ≠ "")
    (hgen : env1.generate = Except.ok v) (hv : v ≠ [])
    (hsave : env1.saveFails = false)
    (hhash : env2.hash c = env1.hash c)
    (htime : env2.now - env1.now ≤ CACHE_EXPIRY) :
    (upload_cv env1 st fn c).response = Response.body v ∧
    (upload_cv env2 (upload_cv env1 st fn c).cache fn c).response = Response.body v ∧
    (upload_cv env2 (upload_cv env1 st fn c).cache fn c).extractCalled = false ∧
    (upload_cv env2 (upload_cv env1 st fn c).cache fn c).generateCalled = false := by
  have hlook1 : get_from_cache env1.now st (env1.hash c) env1.unlinkCacheFails
      = (none, st) := by
    simp [get_from_cache, hfresh]
  have hout1 : upload_cv env1 st fn c =
      { response := Response.body v
        cache := fun k =>
          if k = env1.hash c then some (CacheRecord.good env1.now v) else st k
        tempCreated := true, tempRemoved := true
        extractCalled := true, generateCalled := true
        saveCalled := true, emptyTextBranch := false } := by
    simp only [upload_cv, hfn, if_true, hlook1]
    simp only [optTruthy, Bool.false_eq_true, if_false]
    unfold upload_miss
    rw [hex]
    dsimp only
    rw [if_neg ht, hgen]
    dsimp only
    rw [hsave]
    simp [save_to_cache]
  have hlook2 : get_from_cache env2.now
      (fun k => if k = env1.hash c then some (CacheRecord.good env1.now v) else st k)
      (env2.hash c) env2.unlinkCacheFails
      = (some v,
         fun k => if k = env1.hash c then some (CacheRecord.good env1.now v) else st k) := by
    simp [get_from_cache, hhash, not_lt.mpr htime]
  rw [hout1]
  refine ⟨rfl, ?_, ?_, ?_⟩ <;>
    simp [upload_cv, hfn, hlook2, optTruthy, dictTruthy, hv]

theorem C5_repeat_upload_amended_witness :
    hasPdfSuffix "cv.pdf" = true ∧
    (upload_cv
      { hash := fun _ => "h", now := 0, extract := Except.ok "text"
        generate := Except.ok [("name", Json.str "x")]
        saveFails := false, unlinkCacheFails := false }
      (upload_cv
        { hash := fun _ => "h", now := 0, extract := Except.ok "text"
          generate := Except.ok [("name", Json.str "x")]
          saveFails := false, unlinkCacheFails := false }
        (fun _ => none) "cv.pdf" [1]).cache
      "cv.pdf" [1]).response = Response.body [("name", Json.str "x")] ∧
    (upload_cv
      { hash := fun _ => "h", now := 0, extract := Except.ok "text"
        generate := Except.ok [("name", Json.str "x")]
        saveFails := false, unlinkCacheFails := false }
      (upload_cv
        { hash := fun _ => "h", now := 0, extract := Except.ok "text"
          generate := Except.ok [("name", Json.str "x")]
          saveFails := false, unlinkCacheFails := false }
        (fun _ => none) "cv.pdf" [1]).cache
      "cv.pdf" [1]).extractCalled = false :=
  ⟨rfl,
   (C5_repeat_upload_amended
      { hash := fun _ => "h", now := 0, extract := Except.ok "text"
        generate := Except.ok [("name", Json.str "x")]
        saveFails := false, unlinkCacheFails := false }
      { hash := fun _ => "h", now := 0, extract := Except.ok "text"
        generate := Except.ok [("name", Json.str "x")]
        saveFails := false, unlinkCacheFails := false }
      (fun _ => none) "cv.pdf" [1] "text" [("name", Json.str "x")]
      rfl rfl rfl (by decide) rfl (List.cons_ne_nil _ _) rfl rfl (by decide)).2.1,
   (C5_repeat_upload_amended
      { hash := fun _ => "h", now := 0, extract := Except.ok "text"
        generate := Except.ok [("name", Json.str "x")]
        saveFails := false, unlinkCacheFails := false }
      { hash := fun _ => "h", now := 0, extract := Except.ok "text"
        generate := Except.ok [("name", Json.str "x")]
        saveFails := false, unlinkCacheFails := false }
      (fun _ => none) "cv.pdf" [1] "text" [("name", Json.str "x")]
      rfl rfl rfl (by decide) rfl (List.cons_ne_nil _ _) rfl rfl (by decide)).2.2.1⟩

/-- C6: Error-propagation asymmetry.  A filename not ending in `.pdf`
(case-insensitive) yields the transport-level client error
`HTTPException(400)`; for every `.pdf` filename the response is always a
success-shaped JSON body, and on the miss path an extraction failure or a
structuring failure each produce the body `{"error": <message>}` — the
raised message carried in an `error` string field (the `except` at main.py
line 192 catches everything raised inside the `try`). -/
theorem C6_error_asymmetry (env : Env) (st : CacheState) (fn : String)
    (c : List Nat) :
    (hasPdfSuffix fn = false →
      (upload_cv env st fn c).response
        = Response.clientError 400 "Only PDF files are accepted") ∧
    (hasPdfSuffix fn = true →
      (∃ b, (upload_cv env st fn c).response = Response.body b) ∧
      (optTruthy (get_from_cache env.now st (env.hash c) env.unlinkCacheFails).1 = false →
        (∀ m, env.extract = Except.error m →
          (upload_cv env st fn c).response = Response.body [("error", Json.str m)]) ∧
        (∀ t m, env.extract = Except.ok t → t ≠ "" → env.generate = Except.error m →
          (upload_cv env st fn c).response = Response.body [("error", Json.str m)]))) := by
  refine ⟨fun h => by simp [upload_cv, h], fun h => ⟨?_, fun hmiss => ⟨?_, ?_⟩⟩⟩
  · by_cases hhit :
      optTruthy (get_from_cache env.now st (env.hash c) env.unlinkCacheFails).1 = true
    · exact ⟨(get_from_cache env.now st (env.hash c) env.unlinkCacheFails).1.getD [],
        by simp [upload_cv, h, hhit]⟩
    · have hm : upload_cv env st fn c
          = upload_miss env (get_from_cache env.now st (env.hash c) env.unlinkCacheFails).2
              (env.hash c) := by
        simp [upload_cv, h, hhit]
      rw [hm]
      unfold upload_miss
      cases env.extract with
      | error m => exact ⟨_, rfl⟩
      | ok t =>
        dsimp only
        by_cases h0 : t = ""
        · rw [if_pos h0]
          exact ⟨_, rfl⟩
        · rw [if_neg h0]
          cases env.generate <;> exact ⟨_, rfl⟩
  · intro m hm
    simp [upload_cv, h, hmiss, upload_miss, hm]
  · intro t m hx ht hg
    simp [upload_cv, h, hmiss, upload_miss, hx, ht, hg]

theorem C6_error_asymmetry_witness :
    hasPdfSuffix "resume.docx" = false ∧
    (upload_cv
      { hash := fun _ => "h", now := 0
        extract := Except.error "Failed to extract text from PDF: bad header"
        generate := Except.ok [("a", Json.null)]
        saveFails := false, unlinkCacheFails := false }
      (fun _ => none) "resume.docx" [1]).response
      = Response.clientError 400 "Only PDF files are accepted" ∧
    (upload_cv
      { hash := fun _ => "h", now := 0
        extract := Except.error "Failed to extract text from PDF: bad header"
        generate := Except.ok [("a", Json.null)]
        saveFails := false, unlinkCacheFails := false }
      (fun _ => none) "cv.pdf" [1]).response
      = Response.body [("error", Json.str "Failed to extract text from PDF: bad header")] :=
  ⟨rfl,
   (C6_error_asymmetry
      { hash := fun _ => "h", now := 0
        extract := Except.error "Failed to extract text from PDF: bad header"
        generate := Except.ok [("a", Json.null)]
        saveFails := false, unlinkCacheFails := false }
      (fun _ => none) "resume.docx" [1]).1 rfl,
   (((C6_error_asymmetry
      { hash := fun _ => "h", now := 0
        extract := Except.error "Failed to extract text from PDF: bad header"
        generate := Except.ok [("a", Json.null)]
        saveFails := false, unlinkCacheFails := false }
      (fun _ => none) "cv.pdf" [1]).2 rfl).2 rfl).1
      "Failed to extract text from PDF: bad header" rfl⟩

/-- C9: a fresh cached entry holding the falsy mapping `{}` is treated as a
miss by the truthiness hit test `if cached_result:` (main.py line 159): the
handler calls the extractor and the structuring service again and
overwrites the entry for that hash with the new result at the current
instant. -/
theorem C9_falsy_hit_treated_as_miss (env : Env) (st : CacheState)
    (fn : String) (c : List Nat) (tStore : Int) (t : String) (w : Payload)
    (hfn : hasPdfSuffix fn = true)
    (hstored : st (env.hash c) = some (CacheRecord.good tStore []))
    (hfresh : env.now - tStore ≤ CACHE_EXPIRY)
    (hex : env.extract = Except.ok t) (ht : t ≠ "")
    (hgen : env.generate = Except.ok w)
    (hsave : env.saveFails = false) :
    (upload_cv env st fn c).extractCalled = true ∧
    (upload_cv env st fn c).generateCalled = true ∧
    (upload_cv env st fn c).cache (env.hash c)
      = some (CacheRecord.good env.now w) := by
  have hlook : get_from_cache env.now st (env.hash c) env.unlinkCacheFails
      = (some [], st) := by
    simp [get_from_cache, hstored, not_lt.mpr hfresh]
  have hout : upload_cv env st fn c =
      { response := Response.body w
        cache := fun k =>
          if k = env.hash c then some (CacheRecord.good env.now w) else st k
        tempCreated := true, tempRemoved := true
        extractCalled := true, generateCalled := true
        saveCalled := true, emptyTextBranch := false } := by
    simp only [upload_cv, hfn, if_true, hlook]
    simp only [optTruthy, dictTruthy, List.isEmpty_nil, Bool.not_true,
      Bool.false_eq_true, if_false]
    unfold upload_miss
    rw [hex]
    dsimp only
    rw [if_neg ht, hgen]
    dsimp only
    rw [hsave]
    simp [save_to_cache]
  rw [hout]
  exact ⟨rfl, rfl, by simp⟩

theorem C9_falsy_hit_treated_as_miss_witness :
    ((fun h => if h = "h" then some (CacheRecord.good 0 []) else none : CacheState) "h"
      = some (CacheRecord.good 0 [])) ∧
    (upload_cv
      { hash := fun _ => "h", now := 10, extract := Except.ok "text"
        generate := Except.ok [("name", Json.str "x")]
        saveFails := false, unlinkCacheFails := false }
      (fun h => if h = "h" then some (CacheRecord.good 0 []) else none)
      "cv.pdf" [1]).extractCalled = true ∧
    (upload_cv
      { hash := fun _ => "h", now := 10, extract := Except.ok "text"
        generate := Except.ok [("name", Json.str "x")]
        saveFails := false, unlinkCacheFails := false }
      (fun h => if h = "h" then some (CacheRecord.good 0 []) else none)
      "cv.pdf" [1]).cache "h"
      = some (CacheRecord.good 10 [("name", Json.str "x")]) :=
  ⟨rfl,
   (C9_falsy_hit_treated_as_miss
      { hash := fun _ => "h", now := 10, extract := Except.ok "text"
        generate := Except.ok [("name", Json.str "x")]
        saveFails := false, unlinkCacheFails := false }
      (fun h => if h = "h" then some (CacheRecord.good 0 []) else none)
      "cv.pdf" [1] 0 "text" [("name", Json.str "x")]
      rfl rfl (by decide) rfl (by decide) rfl rfl).1,
   (C9_falsy_hit_treated_as_miss
      { hash := fun _ => "h", now := 10, extract := Except.ok "text"
        generate := Except.ok [("name", Json.str "x")]
        saveFails := false, unlinkCacheFails := false }
      (fun h => if h = "h" then some (CacheRecord.good 0 []) else none)
      "cv.pdf" [1] 0 "text" [("name", Json.str "x")]
      rfl rfl (by decide) rfl (by decide) rfl rfl).2.2⟩

end CVAnalyzer
